import Mathlib

/-!
# ClosedCube_OPT3001 driver (A9 port): shallow embedding

The driver in `src/ClosedCube_OPT3001.cpp` is a client of three platform
primitives (`I2C_Transmit`, `I2C_Receive`, `OS_Sleep`) and of a diagnostic sink
(`Trace`).  The platform is modelled as a deterministic machine over an
arbitrary state type `σ`; every driver function threads a `World σ`, which is
the platform state together with the list of primitive calls issued so far.

Conventions of the embedding:
* `uint8_t` / `uint16_t` values are `Nat` with explicit `% 256` / `% 65536`
  wherever the source narrows;
* the `float` field `lux` and the decimal literals of the source are exact
  rationals (`ℚ`): rounding of the machine arithmetic is not modelled;
* an object the source leaves uninitialised is `none`.
-/

namespace ClosedCube

/-! ## Types declared in the (absent) headers -/

/-- Modelled from the spec: the header declaring `OPT3001_ErrorCode` is absent;
the spec gives the statuses none, timeout and bus-error, named here as the
source file names them. -/
inductive OPT3001_ErrorCode
  | NO_ERROR
  | TIMEOUT_ERROR
  | WIRE_I2C_UNKNOW_ERROR
  deriving DecidableEq

/-- Status of a platform bus primitive (a type of the platform SDK): success,
or a failure with its code. -/
inductive I2C_Error_t
  | I2C_ERROR_NONE
  | I2C_ERROR (code : Nat)
  deriving DecidableEq

/-- Modelled from the spec: the header declaring `OPT3001_Commands` is absent;
the spec lists the six register selectors, named here as the source file names
them.  Their numeric values are a parameter, see `Platform.command`. -/
inductive OPT3001_Commands
  | RESULT
  | CONFIG
  | LOW_LIMIT
  | HIGH_LIMIT
  | MANUFACTURER_ID
  | DEVICE_ID
  deriving DecidableEq

/-- Call sites of the diagnostic sink `Trace`. -/
inductive TraceSite
  | writeConfig_transmit
  | writeData_transmit
  | readData_recieve
  deriving DecidableEq

/-- Constants of the headers that the source file only names: the bus timeout
and the numeric value of each register selector. -/
structure Platform where
  I2C_DEFAULT_TIME_OUT : Nat
  command : OPT3001_Commands → Nat

/-- One call of a platform primitive, as observed on the outside. -/
inductive Event
  | transmit (i2c addr : Nat) (data : List Nat)
  | receive (i2c addr length : Nat)
  | sleep (ms : Nat)
  | trace (level : Nat) (site : TraceSite) (error : I2C_Error_t)
  deriving DecidableEq

/-- Behaviour of the platform primitives over a state type `σ`.  `receive`
answers with a status and the bytes it stored in the buffer of the caller. -/
structure Transport (σ : Type) where
  transmit : σ → Nat → Nat → List Nat → Nat → I2C_Error_t × σ
  receive : σ → Nat → Nat → Nat → Nat → I2C_Error_t × List Nat × σ
  sleep : σ → Nat → σ

/-- Platform state plus the calls issued so far (oldest first). -/
structure World (σ : Type) where
  dev : σ
  log : List Event

/-- Fields of the driver object. -/
structure ClosedCube_OPT3001 where
  _address : Nat
  _i2c : Nat

/-- Modelled from the spec: the header declaring the result structure `OPT3001`
is absent; the spec gives it an illuminance, the raw encoding and a status.
The field `raw` is `none` while the source has not assigned it. -/
structure OPT3001 where
  lux : ℚ
  raw : Option Nat
  error : OPT3001_ErrorCode

variable {σ : Type}

/-! ## Platform primitives -/

def I2C_Transmit (T : Transport σ) (i2c addr : Nat) (data : List Nat) (tmo : Nat)
    (w : World σ) : I2C_Error_t × World σ :=
  let r := T.transmit w.dev i2c addr data tmo
  (r.1, ⟨r.2, w.log ++ [Event.transmit i2c addr data]⟩)

def I2C_Receive (T : Transport σ) (i2c addr length tmo : Nat)
    (w : World σ) : I2C_Error_t × List Nat × World σ :=
  let r := T.receive w.dev i2c addr length tmo
  (r.1, r.2.1, ⟨r.2.2, w.log ++ [Event.receive i2c addr length]⟩)

def OS_Sleep (T : Transport σ) (ms : Nat) (w : World σ) : World σ :=
  ⟨T.sleep w.dev ms, w.log ++ [Event.sleep ms]⟩

def Trace (level : Nat) (site : TraceSite) (error : I2C_Error_t) (w : World σ) : World σ :=
  ⟨w.dev, w.log ++ [Event.trace level site error]⟩

/-! ## Bit fields of `OPT3001_ER` -/

/-- Modelled from the spec: the header declaring the union `OPT3001_ER` is
absent; the spec places the mantissa `Result` in bits 11-0 of the raw value. -/
def Result (rawData : Nat) : Nat := rawData &&& 0x0FFF

/-- Modelled from the spec: the header declaring the union `OPT3001_ER` is
absent; the spec places `Exponent` in bits 15-12 of the raw value. -/
def Exponent (rawData : Nat) : Nat := (rawData >>> 12) &&& 0xF

/-! ## The driver -/

/-- Method `ClosedCube_OPT3001::writeData`: transmit the one-byte register selector. -/
def writeData (T : Transport σ) (P : Platform) (self : ClosedCube_OPT3001)
    (command : OPT3001_Commands) (w : World σ) : OPT3001_ErrorCode × World σ :=
  let reg := P.command command % 256
  let r := I2C_Transmit T self._i2c self._address [reg] P.I2C_DEFAULT_TIME_OUT w
  if r.1 ≠ I2C_Error_t.I2C_ERROR_NONE then
    (OPT3001_ErrorCode.WIRE_I2C_UNKNOW_ERROR, Trace 1 TraceSite.writeData_transmit r.1 r.2)
  else
    (OPT3001_ErrorCode.NO_ERROR, r.2)

/-- The `while (error != I2C_ERROR_NONE)` loop of `readData`, entered with the
current `counter`.  `some e` is a `return e` from inside the loop, `none` is
leaving the loop by its condition. -/
def readData.loop (T : Transport σ) (error : I2C_Error_t) (counter : Nat) (w : World σ) :
    Option OPT3001_ErrorCode × World σ :=
  if error ≠ I2C_Error_t.I2C_ERROR_NONE then
    let counter1 := counter + 1
    let w1 := OS_Sleep T 10 w
    if counter1 > 250 then
      (some OPT3001_ErrorCode.TIMEOUT_ERROR, Trace 1 TraceSite.readData_recieve error w1)
    else
      readData.loop T error counter1 w1
  else
    (none, w)
termination_by 251 - counter
decreasing_by omega

/-- Method `ClosedCube_OPT3001::readData`.  The middle component is the value stored
through the pointer `data`, or `none` when nothing is stored. -/
def readData (T : Transport σ) (P : Platform) (self : ClosedCube_OPT3001) (w : World σ) :
    OPT3001_ErrorCode × Option Nat × World σ :=
  let r := I2C_Receive T self._i2c self._address 2 P.I2C_DEFAULT_TIME_OUT w
  let buf0 := r.2.1.getD 0 0 % 256
  let buf1 := r.2.1.getD 1 0 % 256
  match readData.loop T r.1 0 r.2.2 with
  | (some e, w1) => (e, none, w1)
  | (none, w1) => (OPT3001_ErrorCode.NO_ERROR, some (((buf0 <<< 8) ||| buf1) % 65536), w1)

/-- Method `ClosedCube_OPT3001::readManufacturerID`. -/
def readManufacturerID (T : Transport σ) (P : Platform) (self : ClosedCube_OPT3001)
    (w : World σ) : Nat × World σ :=
  let result := 0
  let r := writeData T P self OPT3001_Commands.MANUFACTURER_ID w
  if r.1 = OPT3001_ErrorCode.NO_ERROR then
    let d := readData T P self r.2
    (d.2.1.getD result, d.2.2)
  else
    (result, r.2)

/-- Method `ClosedCube_OPT3001::readDeviceID`. -/
def readDeviceID (T : Transport σ) (P : Platform) (self : ClosedCube_OPT3001)
    (w : World σ) : Nat × World σ :=
  let result := 0
  let r := writeData T P self OPT3001_Commands.DEVICE_ID w
  if r.1 = OPT3001_ErrorCode.NO_ERROR then
    let d := readData T P self r.2
    (d.2.1.getD result, d.2.2)
  else
    (result, r.2)

/-- Method `ClosedCube_OPT3001::readConfig`; the result is `config.rawData`, `none`
when it was never written. -/
def readConfig (T : Transport σ) (P : Platform) (self : ClosedCube_OPT3001)
    (w : World σ) : Option Nat × World σ :=
  let r := writeData T P self OPT3001_Commands.CONFIG w
  if r.1 = OPT3001_ErrorCode.NO_ERROR then
    let d := readData T P self r.2
    (d.2.1, d.2.2)
  else
    (none, r.2)

/-- Method `ClosedCube_OPT3001::writeConfig`, with `rawData` the 16-bit value of the
configuration argument. -/
def writeConfig (T : Transport σ) (P : Platform) (self : ClosedCube_OPT3001)
    (rawData : Nat) (w : World σ) : OPT3001_ErrorCode × World σ :=
  let data := [P.command OPT3001_Commands.CONFIG % 256,
               (rawData >>> 8) % 256,
               (rawData &&& 0x00FF) % 256]
  let r := I2C_Transmit T self._i2c self._address data P.I2C_DEFAULT_TIME_OUT w
  if r.1 ≠ I2C_Error_t.I2C_ERROR_NONE then
    (OPT3001_ErrorCode.WIRE_I2C_UNKNOW_ERROR, Trace 1 TraceSite.writeConfig_transmit r.1 r.2)
  else
    (OPT3001_ErrorCode.NO_ERROR, r.2)

/-- Method `ClosedCube_OPT3001::returnError`. -/
def returnError (error : OPT3001_ErrorCode) : OPT3001 :=
  { lux := 0, raw := none, error := error }

/-- The `switch (er.Exponent)` of `readRegister`: the value assigned to
`result.lux`, which was set to 0 before and is left alone without a matching
case. -/
def luxOf (rawData : Nat) : ℚ :=
  match Exponent rawData with
  | 0 => 0.01 * (Result rawData : ℚ) * 0.01
  | 1 => 0.01 * (Result rawData : ℚ) * 0.02
  | 2 => 0.01 * (Result rawData : ℚ) * 0.04
  | 3 => 0.01 * (Result rawData : ℚ) * 0.08
  | 4 => 0.01 * (Result rawData : ℚ) * 0.16
  | 5 => 0.01 * (Result rawData : ℚ) * 0.32
  | 6 => 0.01 * (Result rawData : ℚ) * 0.64
  | 7 => 0.01 * (Result rawData : ℚ) * 1.28
  | 8 => 0.01 * (Result rawData : ℚ) * 2.56
  | 9 => 0.01 * (Result rawData : ℚ) * 5.12
  | 10 => 0.01 * (Result rawData : ℚ) * 10.24
  | 11 => 0.01 * (Result rawData : ℚ) * 20.48
  | _ => 0

/-- Method `ClosedCube_OPT3001::readRegister`.  The local `er.rawData` is the value
`readData` stored, `d.2.1`; it is indeterminate (`none`) if nothing was stored,
and then no case of the switch is taken. -/
def readRegister (T : Transport σ) (P : Platform) (self : ClosedCube_OPT3001)
    (command : OPT3001_Commands) (w : World σ) : OPT3001 × World σ :=
  let r := writeData T P self command w
  if r.1 = OPT3001_ErrorCode.NO_ERROR then
    let d := readData T P self r.2
    if d.1 = OPT3001_ErrorCode.NO_ERROR then
      ({ lux := match d.2.1 with
                | some rawData => luxOf rawData
                | none => 0,
         raw := d.2.1,
         error := OPT3001_ErrorCode.NO_ERROR }, d.2.2)
    else
      ({ lux := 0, raw := none, error := d.1 }, d.2.2)
  else
    (returnError r.1, r.2)

/-- Method `ClosedCube_OPT3001::readResult`. -/
def readResult (T : Transport σ) (P : Platform) (self : ClosedCube_OPT3001)
    (w : World σ) : OPT3001 × World σ :=
  readRegister T P self OPT3001_Commands.RESULT w

/-- Method `ClosedCube_OPT3001::readHighLimit`. -/
def readHighLimit (T : Transport σ) (P : Platform) (self : ClosedCube_OPT3001)
    (w : World σ) : OPT3001 × World σ :=
  readRegister T P self OPT3001_Commands.HIGH_LIMIT w

/-- Method `ClosedCube_OPT3001::readLowLimit`. -/
def readLowLimit (T : Transport σ) (P : Platform) (self : ClosedCube_OPT3001)
    (w : World σ) : OPT3001 × World σ :=
  readRegister T P self OPT3001_Commands.LOW_LIMIT w

/-! ## Observations on the call log -/

/-- Number of `I2C_Receive` calls in a log. -/
def receiveCount : List Event → Nat
  | [] => 0
  | Event.receive _ _ _ :: es => receiveCount es + 1
  | _ :: es => receiveCount es

/-- Number of `I2C_Transmit` calls in a log. -/
def transmitCount : List Event → Nat
  | [] => 0
  | Event.transmit _ _ _ :: es => transmitCount es + 1
  | _ :: es => transmitCount es

/-- Number of `OS_Sleep` calls in a log. -/
def sleepCount : List Event → Nat
  | [] => 0
  | Event.sleep _ :: es => sleepCount es + 1
  | _ :: es => sleepCount es

/-! ## Sample platforms -/

/-- A sample value of the header constants (register map of the data sheet). -/
def samplePlatform : Platform where
  I2C_DEFAULT_TIME_OUT := 10
  command
    | OPT3001_Commands.RESULT => 0x00
    | OPT3001_Commands.CONFIG => 0x01
    | OPT3001_Commands.LOW_LIMIT => 0x02
    | OPT3001_Commands.HIGH_LIMIT => 0x03
    | OPT3001_Commands.MANUFACTURER_ID => 0x7E
    | OPT3001_Commands.DEVICE_ID => 0x7F

/-- A sample driver object. -/
def sampleSensor : ClosedCube_OPT3001 := { _address := 0x44, _i2c := 1 }

/-- A bus that never fails and answers every receive with the bytes `b0, b1`. -/
def fixedBus (b0 b1 : Nat) : Transport Unit where
  transmit _ _ _ _ _ := (I2C_Error_t.I2C_ERROR_NONE, ())
  receive _ _ _ _ _ := (I2C_Error_t.I2C_ERROR_NONE, [b0, b1], ())
  sleep _ _ := ()

/-- A bus on which every transmit fails with code `c`. -/
def deafBus (c : Nat) : Transport Unit where
  transmit _ _ _ _ _ := (I2C_Error_t.I2C_ERROR c, ())
  receive _ _ _ _ _ := (I2C_Error_t.I2C_ERROR_NONE, [0, 0], ())
  sleep _ _ := ()

/-- A bus whose transmits succeed and whose receive fails on its first `n`
attempts, then delivers `b0, b1`.  The state is the number of receive attempts
made so far. -/
def flakyBus (n b0 b1 : Nat) : Transport Nat where
  transmit s _ _ _ _ := (I2C_Error_t.I2C_ERROR_NONE, s)
  receive s _ _ _ _ :=
    if s < n then (I2C_Error_t.I2C_ERROR 1, [], s + 1)
    else (I2C_Error_t.I2C_ERROR_NONE, [b0, b1], s + 1)
  sleep s _ := s

/-- A bus whose transmits succeed and whose receive fails on every attempt.
The state is the number of receive attempts made so far. -/
def deadBus : Transport Nat where
  transmit s _ _ _ _ := (I2C_Error_t.I2C_ERROR_NONE, s)
  receive s _ _ _ _ := (I2C_Error_t.I2C_ERROR 1, [], s + 1)
  sleep s _ := s

/-- State of the loop-back device: the register pointer and the two bytes last
written to the configuration register. -/
structure LoopState where
  pointer : Nat
  config : List Nat

/-- A loop-back device with configuration register selector `cfg`: it never
fails, a transmit sets the register pointer to its first byte, a three-byte
transmit to `cfg` stores the two value bytes, and a receive with the pointer at
`cfg` answers with the stored bytes. -/
def loopbackBus (cfg : Nat) : Transport LoopState where
  transmit s _ _ data _ :=
    match data with
    | [r, hi, lo] =>
        (I2C_Error_t.I2C_ERROR_NONE,
          if r = cfg then { pointer := r, config := [hi, lo] } else { s with pointer := r })
    | r :: _ => (I2C_Error_t.I2C_ERROR_NONE, { s with pointer := r })
    | [] => (I2C_Error_t.I2C_ERROR_NONE, s)
  receive s _ _ _ _ :=
    (I2C_Error_t.I2C_ERROR_NONE, if s.pointer = cfg then s.config else [0, 0], s)
  sleep s _ := s

/-- What the text calls a loop-back transport, for the driver `self`: no
transmit and no receive fails, and a two-byte receive that follows a write of
`hi, lo` to CONFIG and a select of CONFIG delivers `hi, lo`. -/
def IsConfigLoopback (T : Transport σ) (P : Platform) (self : ClosedCube_OPT3001) : Prop :=
  (∀ s data, (T.transmit s self._i2c self._address data P.I2C_DEFAULT_TIME_OUT).1
      = I2C_Error_t.I2C_ERROR_NONE) ∧
  (∀ s, (T.receive s self._i2c self._address 2 P.I2C_DEFAULT_TIME_OUT).1
      = I2C_Error_t.I2C_ERROR_NONE) ∧
  (∀ s hi lo,
    (T.receive
      (T.transmit
        (T.transmit s self._i2c self._address
          [P.command OPT3001_Commands.CONFIG % 256, hi, lo] P.I2C_DEFAULT_TIME_OUT).2
        self._i2c self._address [P.command OPT3001_Commands.CONFIG % 256]
        P.I2C_DEFAULT_TIME_OUT).2
      self._i2c self._address 2 P.I2C_DEFAULT_TIME_OUT).2.1 = [hi, lo])

/-! ## Auxiliary lemmas -/

theorem log_iterate_sleep (T : Transport σ) (n : Nat) (w : World σ) :
    ((OS_Sleep T 10)^[n] w).log = w.log ++ List.replicate n (Event.sleep 10) := by
  induction n generalizing w with
  | zero => simp
  | succ k ih =>
      rw [Function.iterate_succ_apply, ih]
      simp [OS_Sleep, List.replicate_succ]

theorem dev_iterate_sleep (T : Transport σ) (n : Nat) (w : World σ) :
    ((OS_Sleep T 10)^[n] w).dev = (fun s => T.sleep s 10)^[n] w.dev := by
  induction n generalizing w with
  | zero => simp
  | succ k ih =>
      rw [Function.iterate_succ_apply, Function.iterate_succ_apply, ih]
      simp [OS_Sleep]

/-- Leaving the loop at once: the condition is false on entry. -/
theorem loop_of_success (T : Transport σ) (counter : Nat) (w : World σ) :
    readData.loop T I2C_Error_t.I2C_ERROR_NONE counter w = (none, w) := by
  rw [readData.loop]
  simp

/-- With a failed status the loop only sleeps until the counter passes 250. -/
theorem loop_of_failure (T : Transport σ) (error : I2C_Error_t)
    (herr : error ≠ I2C_Error_t.I2C_ERROR_NONE) (k counter : Nat) (w : World σ)
    (hk : counter + k = 250) :
    readData.loop T error counter w
      = (some OPT3001_ErrorCode.TIMEOUT_ERROR,
          Trace 1 TraceSite.readData_recieve error ((OS_Sleep T 10)^[k + 1] w)) := by
  induction k generalizing counter w with
  | zero =>
      rw [readData.loop]
      have h : counter + 1 > 250 := by omega
      simp [herr, h]
  | succ j ih =>
      rw [readData.loop]
      have h : ¬ counter + 1 > 250 := by omega
      rw [if_pos herr]
      simp only [h, if_false]
      rw [ih (counter + 1) (OS_Sleep T 10 w) (by omega)]
      rw [Function.iterate_succ_apply (OS_Sleep T 10) (j + 1)]

/-- Both runs of `readData`, by the status of its single receive. -/
theorem readData_eq (T : Transport σ) (P : Platform) (self : ClosedCube_OPT3001)
    (w : World σ) :
    readData T P self w
      = if (T.receive w.dev self._i2c self._address 2 P.I2C_DEFAULT_TIME_OUT).1
            = I2C_Error_t.I2C_ERROR_NONE then
          (OPT3001_ErrorCode.NO_ERROR,
            some (((((I2C_Receive T self._i2c self._address 2 P.I2C_DEFAULT_TIME_OUT w).2.1.getD 0 0
                      % 256) <<< 8)
                  ||| ((I2C_Receive T self._i2c self._address 2 P.I2C_DEFAULT_TIME_OUT w).2.1.getD 1 0
                      % 256)) % 65536),
            (I2C_Receive T self._i2c self._address 2 P.I2C_DEFAULT_TIME_OUT w).2.2)
        else
          (OPT3001_ErrorCode.TIMEOUT_ERROR, none,
            Trace 1 TraceSite.readData_recieve
              (T.receive w.dev self._i2c self._address 2 P.I2C_DEFAULT_TIME_OUT).1
              ((OS_Sleep T 10)^[251]
                (I2C_Receive T self._i2c self._address 2 P.I2C_DEFAULT_TIME_OUT w).2.2)) := by
  by_cases h : (T.receive w.dev self._i2c self._address 2 P.I2C_DEFAULT_TIME_OUT).1
      = I2C_Error_t.I2C_ERROR_NONE
  · rw [if_pos h]
    simp only [readData, I2C_Receive, h, loop_of_success]
  · rw [if_neg h]
    simp only [readData, I2C_Receive]
    rw [loop_of_failure T _ h 250 0 _ (by omega)]

/-- Two bytes assembled as `(buf[0] << 8) | buf[1]` in 16 bits. -/
theorem assemble_bytes (b0 b1 : Nat) (h0 : b0 < 256) (h1 : b1 < 256) :
    (((b0 % 256) <<< 8) ||| (b1 % 256)) % 65536 = b0 * 256 + b1 := by
  rw [Nat.mod_eq_of_lt h0, Nat.mod_eq_of_lt h1, Nat.shiftLeft_eq]
  have h : 2 ^ 8 * b0 + b1 = 2 ^ 8 * b0 ||| b1 := Nat.mul_add_lt_is_or (by omega) b0
  rw [Nat.mul_comm b0 (2 ^ 8), ← h]
  omega

theorem receiveCount_append (l₁ l₂ : List Event) :
    receiveCount (l₁ ++ l₂) = receiveCount l₁ + receiveCount l₂ := by
  induction l₁ with
  | nil => simp [receiveCount]
  | cons e es ih => cases e <;> simp [receiveCount, ih, Nat.add_right_comm]

theorem sleepCount_append (l₁ l₂ : List Event) :
    sleepCount (l₁ ++ l₂) = sleepCount l₁ + sleepCount l₂ := by
  induction l₁ with
  | nil => simp [sleepCount]
  | cons e es ih => cases e <;> simp [sleepCount, ih, Nat.add_right_comm]

theorem transmitCount_append (l₁ l₂ : List Event) :
    transmitCount (l₁ ++ l₂) = transmitCount l₁ + transmitCount l₂ := by
  induction l₁ with
  | nil => simp [transmitCount]
  | cons e es ih => cases e <;> simp [transmitCount, ih, Nat.add_right_comm]

theorem receiveCount_replicate_sleep (n ms : Nat) :
    receiveCount (List.replicate n (Event.sleep ms)) = 0 := by
  induction n with
  | zero => simp [receiveCount]
  | succ k ih => simp [List.replicate_succ, receiveCount, ih]

theorem sleepCount_replicate_sleep (n ms : Nat) :
    sleepCount (List.replicate n (Event.sleep ms)) = n := by
  induction n with
  | zero => simp [sleepCount]
  | succ k ih => simp [List.replicate_succ, sleepCount, ih]

/-- Bit fields of a raw value given by exponent and mantissa. -/
theorem fields_of_raw (e m : Nat) (he : e ≤ 15) (hm : m ≤ 4095) :
    Exponent (e * 4096 + m) = e ∧ Result (e * 4096 + m) = m := by
  unfold Exponent Result
  rw [show (0xF : Nat) = 2 ^ 4 - 1 from rfl, show (0x0FFF : Nat) = 2 ^ 12 - 1 from rfl,
    Nat.and_pow_two_sub_one_eq_mod, Nat.and_pow_two_sub_one_eq_mod, Nat.shiftRight_eq_div_pow]
  norm_num
  omega

/-- The two bytes `writeConfig` sends for a 16-bit value reassemble to it. -/
theorem split_bytes (v : Nat) (hv : v < 65536) :
    (v >>> 8) % 256 = v / 256 ∧ (v &&& 0x00FF) % 256 = v % 256 ∧
      v >>> 8 = v / 256 ∧ v &&& 0x00FF = v % 256 := by
  rw [show (0x00FF : Nat) = 2 ^ 8 - 1 from rfl, Nat.and_pow_two_sub_one_eq_mod,
    Nat.shiftRight_eq_div_pow]
  norm_num
  omega

/-- Outcome of `writeData` by the status of its transmit. -/
theorem writeData_eq (T : Transport σ) (P : Platform) (self : ClosedCube_OPT3001)
    (command : OPT3001_Commands) (w : World σ) :
    writeData T P self command w
      = if (T.transmit w.dev self._i2c self._address [P.command command % 256]
              P.I2C_DEFAULT_TIME_OUT).1 = I2C_Error_t.I2C_ERROR_NONE then
          (OPT3001_ErrorCode.NO_ERROR,
            (I2C_Transmit T self._i2c self._address [P.command command % 256]
              P.I2C_DEFAULT_TIME_OUT w).2)
        else
          (OPT3001_ErrorCode.WIRE_I2C_UNKNOW_ERROR,
            Trace 1 TraceSite.writeData_transmit
              (T.transmit w.dev self._i2c self._address [P.command command % 256]
                P.I2C_DEFAULT_TIME_OUT).1
              (I2C_Transmit T self._i2c self._address [P.command command % 256]
                P.I2C_DEFAULT_TIME_OUT w).2) := by
  by_cases h : (T.transmit w.dev self._i2c self._address [P.command command % 256]
      P.I2C_DEFAULT_TIME_OUT).1 = I2C_Error_t.I2C_ERROR_NONE
  · simp [writeData, I2C_Transmit, h]
  · simp [writeData, I2C_Transmit, h]

/-- Log after `n` sleeps and the trace of a failed receive. -/
theorem log_trace_sleeps (T : Transport σ) (n : Nat) (site : TraceSite) (error : I2C_Error_t)
    (w : World σ) :
    (Trace 1 site error ((OS_Sleep T 10)^[n] w)).log
      = w.log ++ (List.replicate n (Event.sleep 10) ++ [Event.trace 1 site error]) := by
  simp [Trace, log_iterate_sleep]

/-- Platform state after `n` sleeps and a trace. -/
theorem dev_trace_sleeps (T : Transport σ) (n : Nat) (site : TraceSite) (error : I2C_Error_t)
    (w : World σ) :
    (Trace 1 site error ((OS_Sleep T 10)^[n] w)).dev = (fun s => T.sleep s 10)^[n] w.dev := by
  simp [Trace, dev_iterate_sleep]

/-- Calls counted in the log of a failed read. -/
theorem counts_failed_read (l : List Event) (i2c addr len n : Nat) (site : TraceSite)
    (error : I2C_Error_t) :
    receiveCount ((l ++ [Event.receive i2c addr len])
        ++ (List.replicate n (Event.sleep 10) ++ [Event.trace 1 site error]))
      = receiveCount l + 1 ∧
    sleepCount ((l ++ [Event.receive i2c addr len])
        ++ (List.replicate n (Event.sleep 10) ++ [Event.trace 1 site error]))
      = sleepCount l + n := by
  simp [receiveCount_append, sleepCount_append, receiveCount_replicate_sleep,
    sleepCount_replicate_sleep, receiveCount, sleepCount]

/-- The failing run of `readData`, field by field. -/
theorem readData_failure (T : Transport σ) (P : Platform) (self : ClosedCube_OPT3001)
    (w : World σ)
    (h : (T.receive w.dev self._i2c self._address 2 P.I2C_DEFAULT_TIME_OUT).1
        ≠ I2C_Error_t.I2C_ERROR_NONE) :
    (readData T P self w).1 = OPT3001_ErrorCode.TIMEOUT_ERROR ∧
    (readData T P self w).2.1 = none ∧
    (readData T P self w).2.2.log
      = (w.log ++ [Event.receive self._i2c self._address 2])
          ++ (List.replicate 251 (Event.sleep 10)
              ++ [Event.trace 1 TraceSite.readData_recieve
                    (T.receive w.dev self._i2c self._address 2 P.I2C_DEFAULT_TIME_OUT).1]) ∧
    (readData T P self w).2.2.dev
      = (fun s => T.sleep s 10)^[251]
          (T.receive w.dev self._i2c self._address 2 P.I2C_DEFAULT_TIME_OUT).2.2 := by
  rw [readData_eq, if_neg h]
  refine ⟨rfl, rfl, ?_, ?_⟩
  · rw [log_trace_sleeps]
    rfl
  · rw [dev_trace_sleeps]
    rfl

/-- Sleeping does not change the state of a bus whose `sleep` is the identity. -/
theorem iterate_sleep_id (T : Transport σ) (hT : ∀ s ms, T.sleep s ms = s) (n : Nat) (s : σ) :
    (fun s => T.sleep s 10)^[n] s = s := by
  induction n with
  | zero => rfl
  | succ k ih => rw [Function.iterate_succ_apply, hT, ih]

/-- Outcome of `readRegister` when the register select fails. -/
theorem readRegister_select_failure (T : Transport σ) (P : Platform)
    (self : ClosedCube_OPT3001) (command : OPT3001_Commands) (w : World σ)
    (hsel : (T.transmit w.dev self._i2c self._address [P.command command % 256]
        P.I2C_DEFAULT_TIME_OUT).1 ≠ I2C_Error_t.I2C_ERROR_NONE) :
    (readRegister T P self command w).1
      = { lux := 0, raw := none, error := OPT3001_ErrorCode.WIRE_I2C_UNKNOW_ERROR } := by
  simp [readRegister, writeData_eq, hsel, returnError]

/-- Outcome of `readRegister` when the select succeeds and the receive fails. -/
theorem readRegister_read_failure (T : Transport σ) (P : Platform)
    (self : ClosedCube_OPT3001) (command : OPT3001_Commands) (w : World σ)
    (hsel : (T.transmit w.dev self._i2c self._address [P.command command % 256]
        P.I2C_DEFAULT_TIME_OUT).1 = I2C_Error_t.I2C_ERROR_NONE)
    (hrx : (T.receive
        (T.transmit w.dev self._i2c self._address [P.command command % 256]
          P.I2C_DEFAULT_TIME_OUT).2
        self._i2c self._address 2 P.I2C_DEFAULT_TIME_OUT).1 ≠ I2C_Error_t.I2C_ERROR_NONE) :
    (readRegister T P self command w).1
      = { lux := 0, raw := none, error := OPT3001_ErrorCode.TIMEOUT_ERROR } := by
  have h := readData_failure T P self
    (I2C_Transmit T self._i2c self._address [P.command command % 256]
      P.I2C_DEFAULT_TIME_OUT w).2 hrx
  simp only [readRegister, writeData_eq, if_pos hsel, h.1]
  simp

/-- Outcome of `readRegister` when the select succeeds and the receive delivers `b0, b1`. -/
theorem readRegister_success (T : Transport σ) (P : Platform)
    (self : ClosedCube_OPT3001) (command : OPT3001_Commands) (w : World σ)
    (b0 b1 : Nat) (h0 : b0 < 256) (h1 : b1 < 256)
    (hsel : (T.transmit w.dev self._i2c self._address [P.command command % 256]
        P.I2C_DEFAULT_TIME_OUT).1 = I2C_Error_t.I2C_ERROR_NONE)
    (hrx : (T.receive
        (T.transmit w.dev self._i2c self._address [P.command command % 256]
          P.I2C_DEFAULT_TIME_OUT).2
        self._i2c self._address 2 P.I2C_DEFAULT_TIME_OUT).1 = I2C_Error_t.I2C_ERROR_NONE)
    (hbuf : (T.receive
        (T.transmit w.dev self._i2c self._address [P.command command % 256]
          P.I2C_DEFAULT_TIME_OUT).2
        self._i2c self._address 2 P.I2C_DEFAULT_TIME_OUT).2.1 = [b0, b1]) :
    (readRegister T P self command w).1
      = { lux := luxOf (b0 * 256 + b1), raw := some (b0 * 256 + b1),
          error := OPT3001_ErrorCode.NO_ERROR } := by
  have hrx2 : (T.receive (I2C_Transmit T self._i2c self._address [P.command command % 256]
      P.I2C_DEFAULT_TIME_OUT w).2.dev self._i2c self._address 2 P.I2C_DEFAULT_TIME_OUT).1
        = I2C_Error_t.I2C_ERROR_NONE := hrx
  simp only [readRegister, writeData_eq, if_pos hsel, readData_eq, if_pos hrx2]
  simp only [I2C_Receive, I2C_Transmit, hbuf, List.getD_cons_zero, List.getD_cons_succ,
    assemble_bytes b0 b1 h0 h1]
  simp

/-- Bytes of a raw value given by exponent and mantissa. -/
theorem bytes_of_raw (e m : Nat) (he : e ≤ 15) (hm : m ≤ 4095) :
    (e * 4096 + m) / 256 < 256 ∧ (e * 4096 + m) % 256 < 256 ∧
      (e * 4096 + m) / 256 * 256 + (e * 4096 + m) % 256 = e * 4096 + m := by
  omega

/-- The sample loop-back device is a loop-back transport for every driver. -/
theorem loopbackBus_isConfigLoopback (P : Platform) (self : ClosedCube_OPT3001) :
    IsConfigLoopback (loopbackBus (P.command OPT3001_Commands.CONFIG % 256)) P self := by
  refine ⟨?_, ?_, ?_⟩
  · intro s data
    unfold loopbackBus
    simp only
    split <;> rfl
  · intro s
    rfl
  · intro s hi lo
    simp [loopbackBus]

/-! ## Properties of the driver -/

/-- C10: `readData` is a total function that calls `I2C_Receive` exactly once.
It returns `NO_ERROR` exactly when that receive succeeds, and then performs no
sleep; otherwise it performs 251 sleeps of 10 and a trace, no further receive,
returns `TIMEOUT_ERROR` and stores nothing through `data`. -/
theorem readData_single_receive (T : Transport σ) (P : Platform) (self : ClosedCube_OPT3001)
    (w : World σ) :
    ((readData T P self w).1 = OPT3001_ErrorCode.NO_ERROR
        ↔ (T.receive w.dev self._i2c self._address 2 P.I2C_DEFAULT_TIME_OUT).1
            = I2C_Error_t.I2C_ERROR_NONE) ∧
    (readData T P self w).1
      = (if (T.receive w.dev self._i2c self._address 2 P.I2C_DEFAULT_TIME_OUT).1
            = I2C_Error_t.I2C_ERROR_NONE
         then OPT3001_ErrorCode.NO_ERROR else OPT3001_ErrorCode.TIMEOUT_ERROR) ∧
    (readData T P self w).2.2.log
      = w.log ++ Event.receive self._i2c self._address 2 ::
          (if (T.receive w.dev self._i2c self._address 2 P.I2C_DEFAULT_TIME_OUT).1
              = I2C_Error_t.I2C_ERROR_NONE
           then []
           else List.replicate 251 (Event.sleep 10) ++
             [Event.trace 1 TraceSite.readData_recieve
               (T.receive w.dev self._i2c self._address 2 P.I2C_DEFAULT_TIME_OUT).1]) ∧
    receiveCount (readData T P self w).2.2.log = receiveCount w.log + 1 ∧
    sleepCount (readData T P self w).2.2.log
      = sleepCount w.log +
          (if (T.receive w.dev self._i2c self._address 2 P.I2C_DEFAULT_TIME_OUT).1
              = I2C_Error_t.I2C_ERROR_NONE then 0 else 251) ∧
    ((readData T P self w).1 = OPT3001_ErrorCode.TIMEOUT_ERROR ↔ (readData T P self w).2.1 = none) := by
  rw [readData_eq]
  by_cases h : (T.receive w.dev self._i2c self._address 2 P.I2C_DEFAULT_TIME_OUT).1
      = I2C_Error_t.I2C_ERROR_NONE
  · simp [h, I2C_Receive, receiveCount_append, sleepCount_append, receiveCount, sleepCount]
  · simp only [h, if_false, Trace, log_iterate_sleep, I2C_Receive, receiveCount_append,
      sleepCount_append, receiveCount_replicate_sleep, sleepCount_replicate_sleep]
    generalize 251 = n
    simp [receiveCount, sleepCount]

/-- C6: when the receive succeeds delivering the bytes `b0, b1` (each below
256), `readData` returns `NO_ERROR` and stores `b0 * 256 + b1`: the first byte
received is the high byte. -/
theorem readData_big_endian (T : Transport σ) (P : Platform) (self : ClosedCube_OPT3001)
    (w : World σ) (b0 b1 : Nat) (h0 : b0 < 256) (h1 : b1 < 256)
    (hok : (T.receive w.dev self._i2c self._address 2 P.I2C_DEFAULT_TIME_OUT).1
        = I2C_Error_t.I2C_ERROR_NONE)
    (hbuf : (T.receive w.dev self._i2c self._address 2 P.I2C_DEFAULT_TIME_OUT).2.1 = [b0, b1]) :
    (readData T P self w).1 = OPT3001_ErrorCode.NO_ERROR ∧
    (readData T P self w).2.1 = some (b0 * 256 + b1) := by
  rw [readData_eq, if_pos hok]
  refine ⟨rfl, ?_⟩
  simp only [I2C_Receive, hbuf, List.getD_cons_zero, List.getD_cons_succ]
  rw [assemble_bytes b0 b1 h0 h1]

/-- C6, at the bytes 0x12, 0x34: the value is 0x1234, not 0x3412. -/
theorem readData_big_endian_witness :
    (readData (fixedBus 0x12 0x34) samplePlatform sampleSensor ⟨(), []⟩).1
        = OPT3001_ErrorCode.NO_ERROR ∧
    (readData (fixedBus 0x12 0x34) samplePlatform sampleSensor ⟨(), []⟩).2.1 = some 0x1234 ∧
    (readData (fixedBus 0x12 0x34) samplePlatform sampleSensor ⟨(), []⟩).2.1 ≠ some 0x3412 := by
  have h := readData_big_endian (fixedBus 0x12 0x34) samplePlatform sampleSensor ⟨(), []⟩
    0x12 0x34 (by decide) (by decide) rfl rfl
  refine ⟨h.1, h.2, ?_⟩
  rw [h.2]
  decide

/-- C2 (behaviour of the code): on a bus whose receive fails on every attempt
`readData` returns `TIMEOUT_ERROR` after a single receive attempt and 251
sleeps; the receive is not issued 251 times. -/
theorem readData_deadBus_single_attempt :
    (readData deadBus samplePlatform sampleSensor ⟨0, []⟩).1 = OPT3001_ErrorCode.TIMEOUT_ERROR ∧
    (readData deadBus samplePlatform sampleSensor ⟨0, []⟩).2.2.dev = 1 ∧
    receiveCount (readData deadBus samplePlatform sampleSensor ⟨0, []⟩).2.2.log = 1 ∧
    sleepCount (readData deadBus samplePlatform sampleSensor ⟨0, []⟩).2.2.log = 251 ∧
    receiveCount (readData deadBus samplePlatform sampleSensor ⟨0, []⟩).2.2.log ≠ 251 := by
  have hfail : (deadBus.receive (⟨0, []⟩ : World Nat).dev sampleSensor._i2c sampleSensor._address 2
      samplePlatform.I2C_DEFAULT_TIME_OUT).1 ≠ I2C_Error_t.I2C_ERROR_NONE := by
    simp [deadBus]
  obtain ⟨h1, -, h3, h4⟩ := readData_failure deadBus samplePlatform sampleSensor ⟨0, []⟩ hfail
  rw [h1, h3, h4, (counts_failed_read _ _ _ _ _ _ _).1, (counts_failed_read _ _ _ _ _ _ _).2,
    iterate_sleep_id deadBus (fun _ _ => rfl)]
  simp [deadBus, receiveCount, sleepCount]

/-- C3 (behaviour of the code): on a bus whose receive fails on its first
`n + 1` attempts and would then deliver `b0, b1`, `readData` returns
`TIMEOUT_ERROR`, stores nothing and has made a single receive attempt; a
measurement read over it reports `TIMEOUT_ERROR` with illuminance 0. -/
theorem readData_flakyBus_no_retry (n b0 b1 : Nat) :
    (readData (flakyBus (n + 1) b0 b1) samplePlatform sampleSensor ⟨0, []⟩).1
        = OPT3001_ErrorCode.TIMEOUT_ERROR ∧
    (readData (flakyBus (n + 1) b0 b1) samplePlatform sampleSensor ⟨0, []⟩).2.1 = none ∧
    receiveCount (readData (flakyBus (n + 1) b0 b1) samplePlatform sampleSensor ⟨0, []⟩).2.2.log
        = 1 ∧
    (readResult (flakyBus (n + 1) b0 b1) samplePlatform sampleSensor ⟨0, []⟩).1.error
        = OPT3001_ErrorCode.TIMEOUT_ERROR ∧
    (readResult (flakyBus (n + 1) b0 b1) samplePlatform sampleSensor ⟨0, []⟩).1.lux = 0 := by
  have hfail : ((flakyBus (n + 1) b0 b1).receive (⟨0, []⟩ : World Nat).dev sampleSensor._i2c
      sampleSensor._address 2 samplePlatform.I2C_DEFAULT_TIME_OUT).1
        ≠ I2C_Error_t.I2C_ERROR_NONE := by
    simp [flakyBus]
  obtain ⟨h1, h2, h3, -⟩ :=
    readData_failure (flakyBus (n + 1) b0 b1) samplePlatform sampleSensor ⟨0, []⟩ hfail
  refine ⟨h1, h2, ?_, ?_⟩
  · rw [h3, (counts_failed_read _ _ _ _ _ _ _).1]
    rfl
  · have hsel : writeData (flakyBus (n + 1) b0 b1) samplePlatform sampleSensor
        OPT3001_Commands.RESULT ⟨0, []⟩
          = (OPT3001_ErrorCode.NO_ERROR,
              ⟨0, [Event.transmit sampleSensor._i2c sampleSensor._address
                [samplePlatform.command OPT3001_Commands.RESULT % 256]]⟩) := by
      rw [writeData_eq]
      simp [flakyBus, I2C_Transmit]
    have hfail2 : ((flakyBus (n + 1) b0 b1).receive
        (⟨0, [Event.transmit sampleSensor._i2c sampleSensor._address
          [samplePlatform.command OPT3001_Commands.RESULT % 256]]⟩ : World Nat).dev
        sampleSensor._i2c sampleSensor._address 2 samplePlatform.I2C_DEFAULT_TIME_OUT).1
          ≠ I2C_Error_t.I2C_ERROR_NONE := by
      simp [flakyBus]
    obtain ⟨g1, -, -, -⟩ :=
      readData_failure (flakyBus (n + 1) b0 b1) samplePlatform sampleSensor _ hfail2
    simp only [readResult, readRegister, hsel, g1]
    simp

/-- C1: in a measurement read (`readResult`, `readHighLimit`, `readLowLimit`,
each `readRegister` at its register) whose select and receive succeed and whose
received raw value has exponent `e ≤ 11` and mantissa `m ≤ 4095`, the status is
`NO_ERROR` and the illuminance is the rational `m * 0.01 * (0.01 * 2 ^ e)`. -/
theorem readRegister_lux_formula (T : Transport σ) (P : Platform)
    (self : ClosedCube_OPT3001) (command : OPT3001_Commands) (w : World σ)
    (e m : Nat) (he : e ≤ 11) (hm : m ≤ 4095)
    (hsel : (T.transmit w.dev self._i2c self._address [P.command command % 256]
        P.I2C_DEFAULT_TIME_OUT).1 = I2C_Error_t.I2C_ERROR_NONE)
    (hrx : (T.receive
        (T.transmit w.dev self._i2c self._address [P.command command % 256]
          P.I2C_DEFAULT_TIME_OUT).2
        self._i2c self._address 2 P.I2C_DEFAULT_TIME_OUT).1 = I2C_Error_t.I2C_ERROR_NONE)
    (hbuf : (T.receive
        (T.transmit w.dev self._i2c self._address [P.command command % 256]
          P.I2C_DEFAULT_TIME_OUT).2
        self._i2c self._address 2 P.I2C_DEFAULT_TIME_OUT).2.1
          = [(e * 4096 + m) / 256, (e * 4096 + m) % 256]) :
    readResult T P self w = readRegister T P self OPT3001_Commands.RESULT w ∧
    readHighLimit T P self w = readRegister T P self OPT3001_Commands.HIGH_LIMIT w ∧
    readLowLimit T P self w = readRegister T P self OPT3001_Commands.LOW_LIMIT w ∧
    (readRegister T P self command w).1.error = OPT3001_ErrorCode.NO_ERROR ∧
    (readRegister T P self command w).1.raw = some (e * 4096 + m) ∧
    (readRegister T P self command w).1.lux = (m : ℚ) * 0.01 * (0.01 * 2 ^ e) := by
  obtain ⟨hb0, hb1, hraw⟩ := bytes_of_raw e m (by omega) hm
  obtain ⟨hE, hR⟩ := fields_of_raw e m (by omega) hm
  rw [readRegister_success T P self command w _ _ hb0 hb1 hsel hrx hbuf, hraw]
  refine ⟨rfl, rfl, rfl, rfl, rfl, ?_⟩
  show luxOf (e * 4096 + m) = _
  unfold luxOf
  rw [hE, hR]
  interval_cases e <;> norm_num <;> ring

/-- C1, at raw 0x0C00 (exponent 0, mantissa 3072): the result read yields
0.3072. -/
theorem readRegister_lux_formula_witness :
    (0 : Nat) ≤ 11 ∧ (3072 : Nat) ≤ 4095 ∧
    (readResult (fixedBus 0x0C 0x00) samplePlatform sampleSensor ⟨(), []⟩).1.error
        = OPT3001_ErrorCode.NO_ERROR ∧
    (readResult (fixedBus 0x0C 0x00) samplePlatform sampleSensor ⟨(), []⟩).1.raw
        = some 0x0C00 ∧
    (readResult (fixedBus 0x0C 0x00) samplePlatform sampleSensor ⟨(), []⟩).1.lux = 0.3072 := by
  have h := readRegister_lux_formula (fixedBus 0x0C 0x00) samplePlatform sampleSensor
    OPT3001_Commands.RESULT ⟨(), []⟩ 0 3072 (by decide) (by decide) rfl rfl rfl
  refine ⟨by decide, by decide, h.2.2.2.1, h.2.2.2.2.1, ?_⟩
  have hl := h.2.2.2.2.2
  rw [readResult, hl]
  norm_num

/-- C9: in a measurement read whose select and receive succeed and whose
received raw value has an exponent `e` in 12..15, whatever the mantissa, the
status is `NO_ERROR` and the illuminance is exactly 0. -/
theorem readRegister_exponent_out_of_range (T : Transport σ) (P : Platform)
    (self : ClosedCube_OPT3001) (command : OPT3001_Commands) (w : World σ)
    (e m : Nat) (he : 12 ≤ e) (he15 : e ≤ 15) (hm : m ≤ 4095)
    (hsel : (T.transmit w.dev self._i2c self._address [P.command command % 256]
        P.I2C_DEFAULT_TIME_OUT).1 = I2C_Error_t.I2C_ERROR_NONE)
    (hrx : (T.receive
        (T.transmit w.dev self._i2c self._address [P.command command % 256]
          P.I2C_DEFAULT_TIME_OUT).2
        self._i2c self._address 2 P.I2C_DEFAULT_TIME_OUT).1 = I2C_Error_t.I2C_ERROR_NONE)
    (hbuf : (T.receive
        (T.transmit w.dev self._i2c self._address [P.command command % 256]
          P.I2C_DEFAULT_TIME_OUT).2
        self._i2c self._address 2 P.I2C_DEFAULT_TIME_OUT).2.1
          = [(e * 4096 + m) / 256, (e * 4096 + m) % 256]) :
    readResult T P self w = readRegister T P self OPT3001_Commands.RESULT w ∧
    readHighLimit T P self w = readRegister T P self OPT3001_Commands.HIGH_LIMIT w ∧
    readLowLimit T P self w = readRegister T P self OPT3001_Commands.LOW_LIMIT w ∧
    (readRegister T P self command w).1.error = OPT3001_ErrorCode.NO_ERROR ∧
    (readRegister T P self command w).1.raw = some (e * 4096 + m) ∧
    (readRegister T P self command w).1.lux = 0 := by
  obtain ⟨hb0, hb1, hraw⟩ := bytes_of_raw e m he15 hm
  obtain ⟨hE, -⟩ := fields_of_raw e m he15 hm
  rw [readRegister_success T P self command w _ _ hb0 hb1 hsel hrx hbuf, hraw]
  refine ⟨rfl, rfl, rfl, rfl, rfl, ?_⟩
  show luxOf (e * 4096 + m) = _
  unfold luxOf
  rw [hE]
  interval_cases e <;> rfl

/-- C9, at raw 0xC123 (exponent 12, mantissa 0x123) read from the high-limit
register. -/
theorem readRegister_exponent_out_of_range_witness :
    (12 : Nat) ≤ 12 ∧ (12 : Nat) ≤ 15 ∧ (0x123 : Nat) ≤ 4095 ∧
    (readHighLimit (fixedBus 0xC1 0x23) samplePlatform sampleSensor ⟨(), []⟩).1.raw
        = some 0xC123 ∧
    (readHighLimit (fixedBus 0xC1 0x23) samplePlatform sampleSensor ⟨(), []⟩).1.lux = 0 := by
  have h := readRegister_exponent_out_of_range (fixedBus 0xC1 0x23) samplePlatform sampleSensor
    OPT3001_Commands.HIGH_LIMIT ⟨(), []⟩ 12 0x123 (by decide) (by decide) (by decide)
    rfl rfl rfl
  exact ⟨by decide, by decide, by decide, h.2.2.2.2.1, h.2.2.2.2.2⟩

/-- C7: for a measurement read (`readResult`, `readHighLimit`, `readLowLimit`,
each `readRegister` at its register): if the select transmit fails the result
has status `WIRE_I2C_UNKNOW_ERROR` and illuminance 0; if the select succeeds and
the receive fails the result has status `TIMEOUT_ERROR` and illuminance 0; in
every run a status other than `NO_ERROR` comes with illuminance 0. -/
theorem readRegister_error_lux_zero (T : Transport σ) (P : Platform)
    (self : ClosedCube_OPT3001) (command : OPT3001_Commands) (w : World σ) :
    readResult T P self w = readRegister T P self OPT3001_Commands.RESULT w ∧
    readHighLimit T P self w = readRegister T P self OPT3001_Commands.HIGH_LIMIT w ∧
    readLowLimit T P self w = readRegister T P self OPT3001_Commands.LOW_LIMIT w ∧
    ((T.transmit w.dev self._i2c self._address [P.command command % 256]
        P.I2C_DEFAULT_TIME_OUT).1 ≠ I2C_Error_t.I2C_ERROR_NONE →
      (readRegister T P self command w).1.error = OPT3001_ErrorCode.WIRE_I2C_UNKNOW_ERROR ∧
      (readRegister T P self command w).1.lux = 0) ∧
    ((T.transmit w.dev self._i2c self._address [P.command command % 256]
        P.I2C_DEFAULT_TIME_OUT).1 = I2C_Error_t.I2C_ERROR_NONE →
      (T.receive
        (T.transmit w.dev self._i2c self._address [P.command command % 256]
          P.I2C_DEFAULT_TIME_OUT).2
        self._i2c self._address 2 P.I2C_DEFAULT_TIME_OUT).1 ≠ I2C_Error_t.I2C_ERROR_NONE →
      (readRegister T P self command w).1.error = OPT3001_ErrorCode.TIMEOUT_ERROR ∧
      (readRegister T P self command w).1.lux = 0) ∧
    ((readRegister T P self command w).1.error ≠ OPT3001_ErrorCode.NO_ERROR →
      (readRegister T P self command w).1.lux = 0) := by
  refine ⟨rfl, rfl, rfl, ?_, ?_, ?_⟩
  · intro hsel
    rw [readRegister_select_failure T P self command w hsel]
    exact ⟨rfl, rfl⟩
  · intro hsel hrx
    rw [readRegister_read_failure T P self command w hsel hrx]
    exact ⟨rfl, rfl⟩
  · intro herr
    by_cases hsel : (T.transmit w.dev self._i2c self._address [P.command command % 256]
        P.I2C_DEFAULT_TIME_OUT).1 = I2C_Error_t.I2C_ERROR_NONE
    · by_cases hrx : (T.receive
          (T.transmit w.dev self._i2c self._address [P.command command % 256]
            P.I2C_DEFAULT_TIME_OUT).2
          self._i2c self._address 2 P.I2C_DEFAULT_TIME_OUT).1 = I2C_Error_t.I2C_ERROR_NONE
      · exfalso
        apply herr
        have hrx2 : (T.receive (I2C_Transmit T self._i2c self._address
            [P.command command % 256] P.I2C_DEFAULT_TIME_OUT w).2.dev self._i2c self._address 2
            P.I2C_DEFAULT_TIME_OUT).1 = I2C_Error_t.I2C_ERROR_NONE := hrx
        simp only [readRegister, writeData_eq, if_pos hsel, readData_eq, if_pos hrx2]
        simp
      · rw [readRegister_read_failure T P self command w hsel hrx]
    · rw [readRegister_select_failure T P self command w hsel]

/-- C7, on a bus whose transmit fails (result register) and on a bus whose
receive fails (low-limit register). -/
theorem readRegister_error_lux_zero_witness :
    ((deafBus 7).transmit () sampleSensor._i2c sampleSensor._address
        [samplePlatform.command OPT3001_Commands.RESULT % 256]
        samplePlatform.I2C_DEFAULT_TIME_OUT).1 ≠ I2C_Error_t.I2C_ERROR_NONE ∧
    (readResult (deafBus 7) samplePlatform sampleSensor ⟨(), []⟩).1.error
        = OPT3001_ErrorCode.WIRE_I2C_UNKNOW_ERROR ∧
    (readResult (deafBus 7) samplePlatform sampleSensor ⟨(), []⟩).1.lux = 0 ∧
    (deadBus.receive 0 sampleSensor._i2c sampleSensor._address 2
        samplePlatform.I2C_DEFAULT_TIME_OUT).1 ≠ I2C_Error_t.I2C_ERROR_NONE ∧
    (readLowLimit deadBus samplePlatform sampleSensor ⟨0, []⟩).1.error
        = OPT3001_ErrorCode.TIMEOUT_ERROR ∧
    (readLowLimit deadBus samplePlatform sampleSensor ⟨0, []⟩).1.lux = 0 := by
  have h1 := (readRegister_error_lux_zero (deafBus 7) samplePlatform sampleSensor
    OPT3001_Commands.RESULT ⟨(), []⟩).2.2.2.1 (by simp [deafBus])
  have h2 := (readRegister_error_lux_zero deadBus samplePlatform sampleSensor
    OPT3001_Commands.LOW_LIMIT ⟨0, []⟩).2.2.2.2.1 rfl (by simp [deadBus])
  exact ⟨by simp [deafBus], h1.1, h1.2, by simp [deadBus], h2.1, h2.2⟩

/-- C8: when the register-select transmit fails, `readManufacturerID` and
`readDeviceID` return 0; the return value is a bare number, and it equals what
the same call returns over a healthy bus whose device reports the ID 0. -/
theorem readID_select_failure_zero (T : Transport σ) (P : Platform)
    (self : ClosedCube_OPT3001) (w : World σ)
    (hman : (T.transmit w.dev self._i2c self._address
        [P.command OPT3001_Commands.MANUFACTURER_ID % 256]
        P.I2C_DEFAULT_TIME_OUT).1 ≠ I2C_Error_t.I2C_ERROR_NONE)
    (hdev : (T.transmit w.dev self._i2c self._address
        [P.command OPT3001_Commands.DEVICE_ID % 256]
        P.I2C_DEFAULT_TIME_OUT).1 ≠ I2C_Error_t.I2C_ERROR_NONE) :
    (readManufacturerID T P self w).1 = 0 ∧
    (readDeviceID T P self w).1 = 0 ∧
    (∀ w0 : World Unit,
      (readManufacturerID (fixedBus 0 0) P self w0).1 = (readManufacturerID T P self w).1) ∧
    (∀ w0 : World Unit,
      (readDeviceID (fixedBus 0 0) P self w0).1 = (readDeviceID T P self w).1) := by
  have hm : (readManufacturerID T P self w).1 = 0 := by
    simp [readManufacturerID, writeData_eq, hman]
  have hd : (readDeviceID T P self w).1 = 0 := by
    simp [readDeviceID, writeData_eq, hdev]
  refine ⟨hm, hd, ?_, ?_⟩
  · intro w0
    rw [hm]
    simp [readManufacturerID, writeData_eq, readData_eq, fixedBus, I2C_Receive]
  · intro w0
    rw [hd]
    simp [readDeviceID, writeData_eq, readData_eq, fixedBus, I2C_Receive]

/-- C8, on a bus whose every transmit fails with code 7. -/
theorem readID_select_failure_zero_witness :
    ((deafBus 7).transmit () sampleSensor._i2c sampleSensor._address
        [samplePlatform.command OPT3001_Commands.MANUFACTURER_ID % 256]
        samplePlatform.I2C_DEFAULT_TIME_OUT).1 ≠ I2C_Error_t.I2C_ERROR_NONE ∧
    ((deafBus 7).transmit () sampleSensor._i2c sampleSensor._address
        [samplePlatform.command OPT3001_Commands.DEVICE_ID % 256]
        samplePlatform.I2C_DEFAULT_TIME_OUT).1 ≠ I2C_Error_t.I2C_ERROR_NONE ∧
    (readManufacturerID (deafBus 7) samplePlatform sampleSensor ⟨(), []⟩).1 = 0 ∧
    (readDeviceID (deafBus 7) samplePlatform sampleSensor ⟨(), []⟩).1 = 0 := by
  have h := readID_select_failure_zero (deafBus 7) samplePlatform sampleSensor ⟨(), []⟩
    (by simp [deafBus]) (by simp [deafBus])
  exact ⟨by simp [deafBus], by simp [deafBus], h.1, h.2.1⟩

/-- C4: for a 16-bit value `v`, `writeConfig` issues exactly one bus call, a
transmit to the device address of the three bytes CONFIG selector, `v >> 8`,
`v & 0xFF` (high byte first), and returns `WIRE_I2C_UNKNOW_ERROR` if that
transmit reports a failure and `NO_ERROR` otherwise. -/
theorem writeConfig_wire_format (T : Transport σ) (P : Platform)
    (self : ClosedCube_OPT3001) (v : Nat) (w : World σ) (hv : v < 65536)
    (hcfg : P.command OPT3001_Commands.CONFIG < 256) :
    (writeConfig T P self v w).1
      = (if (T.transmit w.dev self._i2c self._address
              [P.command OPT3001_Commands.CONFIG, v >>> 8, v &&& 0xFF]
              P.I2C_DEFAULT_TIME_OUT).1 = I2C_Error_t.I2C_ERROR_NONE
         then OPT3001_ErrorCode.NO_ERROR else OPT3001_ErrorCode.WIRE_I2C_UNKNOW_ERROR) ∧
    (writeConfig T P self v w).2.log
      = w.log ++ Event.transmit self._i2c self._address
            [P.command OPT3001_Commands.CONFIG, v >>> 8, v &&& 0xFF] ::
          (if (T.transmit w.dev self._i2c self._address
                [P.command OPT3001_Commands.CONFIG, v >>> 8, v &&& 0xFF]
                P.I2C_DEFAULT_TIME_OUT).1 = I2C_Error_t.I2C_ERROR_NONE
           then []
           else [Event.trace 1 TraceSite.writeConfig_transmit
                  (T.transmit w.dev self._i2c self._address
                    [P.command OPT3001_Commands.CONFIG, v >>> 8, v &&& 0xFF]
                    P.I2C_DEFAULT_TIME_OUT).1]) ∧
    (writeConfig T P self v w).2.dev
      = (T.transmit w.dev self._i2c self._address
            [P.command OPT3001_Commands.CONFIG, v >>> 8, v &&& 0xFF]
            P.I2C_DEFAULT_TIME_OUT).2 ∧
    transmitCount (writeConfig T P self v w).2.log = transmitCount w.log + 1 ∧
    receiveCount (writeConfig T P self v w).2.log = receiveCount w.log ∧
    [P.command OPT3001_Commands.CONFIG, v >>> 8, v &&& 0xFF]
      = [P.command OPT3001_Commands.CONFIG, v / 256, v % 256] := by
  obtain ⟨h1, h2, h3, h4⟩ := split_bytes v hv
  have hdata : [P.command OPT3001_Commands.CONFIG % 256, (v >>> 8) % 256, (v &&& 0x00FF) % 256]
      = [P.command OPT3001_Commands.CONFIG, v >>> 8, v &&& 0xFF] := by
    rw [Nat.mod_eq_of_lt hcfg, h1, h2, h3, h4]
  have hlast : [P.command OPT3001_Commands.CONFIG, v >>> 8, v &&& 0xFF]
      = [P.command OPT3001_Commands.CONFIG, v / 256, v % 256] := by
    rw [h3, h4]
  refine ⟨?_, ?_, ?_, ?_, ?_, hlast⟩ <;>
    by_cases h : (T.transmit w.dev self._i2c self._address
      [P.command OPT3001_Commands.CONFIG, v >>> 8, v &&& 0xFF]
      P.I2C_DEFAULT_TIME_OUT).1 = I2C_Error_t.I2C_ERROR_NONE <;>
    simp only [writeConfig, hdata, I2C_Transmit, Trace] <;>
    simp [h, transmitCount_append, receiveCount_append, transmitCount, receiveCount]

/-- C4, at the value 0x10C4: over a bus that accepts the transmit and over one
that rejects it. -/
theorem writeConfig_wire_format_witness :
    (0x10C4 : Nat) < 65536 ∧ samplePlatform.command OPT3001_Commands.CONFIG < 256 ∧
    (writeConfig (fixedBus 0 0) samplePlatform sampleSensor 0x10C4 ⟨(), []⟩).1
        = OPT3001_ErrorCode.NO_ERROR ∧
    (writeConfig (fixedBus 0 0) samplePlatform sampleSensor 0x10C4 ⟨(), []⟩).2.log
        = [Event.transmit 1 0x44 [0x01, 0x10, 0xC4]] ∧
    (writeConfig (deafBus 7) samplePlatform sampleSensor 0x10C4 ⟨(), []⟩).1
        = OPT3001_ErrorCode.WIRE_I2C_UNKNOW_ERROR ∧
    (writeConfig (deafBus 7) samplePlatform sampleSensor 0x10C4 ⟨(), []⟩).2.log
        = [Event.transmit 1 0x44 [0x01, 0x10, 0xC4],
           Event.trace 1 TraceSite.writeConfig_transmit (I2C_Error_t.I2C_ERROR 7)] := by
  have h1 := writeConfig_wire_format (fixedBus 0 0) samplePlatform sampleSensor 0x10C4
    ⟨(), []⟩ (by decide) (by decide)
  have h2 := writeConfig_wire_format (deafBus 7) samplePlatform sampleSensor 0x10C4
    ⟨(), []⟩ (by decide) (by decide)
  refine ⟨by decide, by decide, ?_, ?_, ?_, ?_⟩
  · rw [h1.1]; rfl
  · rw [h1.2.1]; rfl
  · rw [h2.1]; rfl
  · rw [h2.2.1]; rfl

/-- C5: over a loop-back transport (never failing, answering a two-byte receive
after a CONFIG select with the two bytes last written to CONFIG), for every
16-bit `v`, `writeConfig v` succeeds and the `readConfig` that follows returns
the raw value `v`. -/
theorem writeConfig_readConfig_roundtrip (T : Transport σ) (P : Platform)
    (self : ClosedCube_OPT3001) (v : Nat) (w : World σ) (hv : v < 65536)
    (hT : IsConfigLoopback T P self) :
    (writeConfig T P self v w).1 = OPT3001_ErrorCode.NO_ERROR ∧
    (readConfig T P self (writeConfig T P self v w).2).1 = some v := by
  obtain ⟨htx, hrx, hloop⟩ := hT
  obtain ⟨h1, h2, -, -⟩ := split_bytes v hv
  have hw : writeConfig T P self v w
      = (OPT3001_ErrorCode.NO_ERROR,
          (I2C_Transmit T self._i2c self._address
            [P.command OPT3001_Commands.CONFIG % 256, (v >>> 8) % 256, (v &&& 0x00FF) % 256]
            P.I2C_DEFAULT_TIME_OUT w).2) := by
    simp [writeConfig, I2C_Transmit, htx]
  rw [hw]
  refine ⟨rfl, ?_⟩
  simp only [readConfig, writeData_eq, htx, if_true, readData_eq, hrx]
  simp only [I2C_Receive, I2C_Transmit, hloop, List.getD_cons_zero, List.getD_cons_succ]
  have ha := assemble_bytes ((v >>> 8) % 256) ((v &&& 0x00FF) % 256)
    (Nat.mod_lt _ (by decide)) (Nat.mod_lt _ (by decide))
  rw [Nat.mod_mod, Nat.mod_mod] at ha
  simp only [Nat.mod_mod]
  rw [ha, h1, h2]
  congr 1
  omega

/-- C5, at the value 0x10C4 over the sample loop-back device. -/
theorem writeConfig_readConfig_roundtrip_witness :
    (0x10C4 : Nat) < 65536 ∧
    IsConfigLoopback (loopbackBus (samplePlatform.command OPT3001_Commands.CONFIG % 256))
      samplePlatform sampleSensor ∧
    (readConfig (loopbackBus (samplePlatform.command OPT3001_Commands.CONFIG % 256))
      samplePlatform sampleSensor
      (writeConfig (loopbackBus (samplePlatform.command OPT3001_Commands.CONFIG % 256))
        samplePlatform sampleSensor 0x10C4 ⟨⟨0, [0, 0]⟩, []⟩).2).1 = some 0x10C4 :=
  ⟨by decide, loopbackBus_isConfigLoopback samplePlatform sampleSensor,
    (writeConfig_readConfig_roundtrip
      (loopbackBus (samplePlatform.command OPT3001_Commands.CONFIG % 256))
      samplePlatform sampleSensor 0x10C4 ⟨⟨0, [0, 0]⟩, []⟩ (by decide)
      (loopbackBus_isConfigLoopback samplePlatform sampleSensor)).2⟩

end ClosedCube
